import Mathlib

/-!
Verification of the ESP8266 socket-multiplexing driver
(`ESP8266Interface.cpp` / `ESP8266Interface.h` / `ESP8266/ESP8266.h`).

The driver multiplexes up to `ESP8266_SOCKET_COUNT` logical sockets over one
serial AT-command channel.  `ESP8266Interface` keeps a fixed table `_ids` of
occupied socket ids, a table `_cbs` of registered per-socket callbacks, and a
heap-allocated per-socket record `esp8266_socket { id, proto, connected, addr }`.
Every socket operation sets a timeout on the transport and issues at most a few
transport exchanges (`_esp.close`, `_esp.open`, `_esp.send`, `_esp.recv`).

The shallow embedding below models:
  * the transport (class `ESP8266`) as an oracle `EspTransport` giving the
    success of each exchange — its implementation file is not part of the
    sources, only its declarations in `ESP8266.h`;
  * each socket operation as a pure function from the relevant state to a
    result, the updated state, and the list of transport interactions it
    performed (timeout settings and exchanges), in order.
-/

/-- `#define ESP8266_SOCKET_COUNT 5` (ESP8266Interface.h). -/
abbrev ESP8266_SOCKET_COUNT : Nat := 5

/-- `#define ESP8266_CONNECT_TIMEOUT 15000` (ESP8266Interface.cpp). -/
abbrev ESP8266_CONNECT_TIMEOUT : Nat := 15000

/-- `#define ESP8266_SEND_TIMEOUT 500` (ESP8266Interface.cpp). -/
abbrev ESP8266_SEND_TIMEOUT : Nat := 500

/-- `#define ESP8266_RECV_TIMEOUT 0` (ESP8266Interface.cpp). -/
abbrev ESP8266_RECV_TIMEOUT : Nat := 0

/-- `#define ESP8266_MISC_TIMEOUT 500` (ESP8266Interface.cpp). -/
abbrev ESP8266_MISC_TIMEOUT : Nat := 500

/-- `nsapi_protocol_t`: the two protocols the driver distinguishes. -/
inductive Protocol where
  | tcp
  | udp
deriving DecidableEq

/-- `SocketAddress`: remote endpoint, IP address plus port.  Two addresses are
equal exactly when both components agree, matching `SocketAddress::operator !=`
as used in `socket_sendto`. -/
structure SocketAddr where
  ip : String
  port : Nat
deriving DecidableEq

/-- The `NSAPI_ERROR_*` codes the socket layer of this driver can surface. -/
inductive NsapiError where
  | deviceError
  | noSocket
  | wouldBlock
  | invalidHandle
  | unsupported
deriving DecidableEq

/-- `struct esp8266_socket { int id; nsapi_protocol_t proto; bool connected;
SocketAddress addr; }` (ESP8266Interface.cpp).  A freshly `new`-ed socket has a
default-constructed (empty) `addr`, modelled as `none`. -/
structure Esp8266Socket where
  id : Fin ESP8266_SOCKET_COUNT
  proto : Protocol
  connected : Bool
  addr : Option SocketAddr
deriving DecidableEq

/-- The occupancy table `bool _ids[ESP8266_SOCKET_COUNT]`:
`true` = slot taken, `false` = slot free. -/
abbrev Ids := Fin ESP8266_SOCKET_COUNT → Bool

/-- The callback table `_cbs[ESP8266_SOCKET_COUNT]`.  A registered callback is
abstracted by its opaque context value (`data` pointer); `none` models a null
`callback` function pointer. -/
abbrev Cbs := Fin ESP8266_SOCKET_COUNT → Option Nat

/-- Per-slot pending inbound byte counts (the spec's `pending_bytes` hint). -/
abbrev Pending := Fin ESP8266_SOCKET_COUNT → Nat

/-- One interaction with the `ESP8266` transport object, in program order:
a `setTimeout` call or one of the command exchanges the socket layer issues. -/
inductive Exchange where
  | setTimeoutX (ms : Nat)
  | closeX (id : Fin ESP8266_SOCKET_COUNT)
  | openX (ptype : String) (id : Fin ESP8266_SOCKET_COUNT) (addr : SocketAddr)
  | sendX (id : Fin ESP8266_SOCKET_COUNT) (size : Nat)
  | recvX (id : Fin ESP8266_SOCKET_COUNT) (size : Nat)
deriving DecidableEq

/-- Outcome oracle for the transport exchanges (`ESP8266::close`,
`ESP8266::open`, `ESP8266::send` return `bool`; their implementation is
external to the socket layer). -/
structure EspTransport where
  closeOk : Fin ESP8266_SOCKET_COUNT → Bool
  openOk : String → Fin ESP8266_SOCKET_COUNT → SocketAddr → Bool
  sendOk : Fin ESP8266_SOCKET_COUNT → Nat → Bool

/-- The id scan of `ESP8266Interface::socket_open`: the loop
`for (i = 0; i < ESP8266_SOCKET_COUNT; i++) if (!_ids[i]) { id = i; break; }`,
unrolled for the constant `ESP8266_SOCKET_COUNT = 5`. -/
def findFree (ids : Ids) : Option (Fin ESP8266_SOCKET_COUNT) :=
  if ids 0 = false then some 0
  else if ids 1 = false then some 1
  else if ids 2 = false then some 2
  else if ids 3 = false then some 3
  else if ids 4 = false then some 4
  else none

/-- `ESP8266Interface::socket_open`: takes the lowest free id, marks it taken,
and returns a fresh socket record with the requested protocol, not connected,
and a default (empty) address; with no free id it fails with
`NSAPI_ERROR_NO_SOCKET` and leaves the table alone.  No transport exchange is
issued. -/
def socket_open (ids : Ids) (proto : Protocol) :
    Except NsapiError Esp8266Socket × Ids :=
  match findFree ids with
  | none => (.error .noSocket, ids)
  | some i =>
      (.ok { id := i, proto := proto, connected := false, addr := none },
       Function.update ids i true)

/-- `ESP8266Interface::socket_close`: sets the misc timeout, issues the close
exchange, records `NSAPI_ERROR_DEVICE_ERROR` if it fails, then unconditionally
clears `_ids[socket->id]` and deletes the socket record. -/
def socket_close (esp : EspTransport) (ids : Ids) (socket : Esp8266Socket) :
    Except NsapiError Unit × Ids × List Exchange :=
  let trace : List Exchange :=
    [.setTimeoutX ESP8266_MISC_TIMEOUT, .closeX socket.id]
  let err : Except NsapiError Unit :=
    if esp.closeOk socket.id = true then .ok () else .error .deviceError
  (err, Function.update ids socket.id false, trace)

/-- The protocol string of `ESP8266Interface::socket_connect`:
`(socket->proto == NSAPI_UDP) ? "UDP" : "TCP"`. -/
def protoString (p : Protocol) : String :=
  match p with
  | .udp => "UDP"
  | .tcp => "TCP"

/-- `ESP8266Interface::socket_connect`: sets the misc timeout and issues the
open exchange with the protocol string, id, and peer address.  On success it
only sets `connected = true` (the peer address field is left untouched); on
failure it returns `NSAPI_ERROR_DEVICE_ERROR` with the socket unchanged. -/
def socket_connect (esp : EspTransport) (socket : Esp8266Socket)
    (addr : SocketAddr) :
    Except NsapiError Unit × Esp8266Socket × List Exchange :=
  let trace : List Exchange :=
    [.setTimeoutX ESP8266_MISC_TIMEOUT,
     .openX (protoString socket.proto) socket.id addr]
  if esp.openOk (protoString socket.proto) socket.id addr = true then
    (.ok (), { socket with connected := true }, trace)
  else
    (.error .deviceError, socket, trace)

/-- `ESP8266Interface::socket_send`: sets the send timeout, issues the send
exchange (the payload is abstracted by its byte count), and returns the full
`size` on success or `NSAPI_ERROR_DEVICE_ERROR` on rejection.  The socket
record is not consulted beyond its id and not modified. -/
def socket_send (esp : EspTransport) (socket : Esp8266Socket) (size : Nat) :
    Except NsapiError Nat × List Exchange :=
  let trace : List Exchange :=
    [.setTimeoutX ESP8266_SEND_TIMEOUT, .sendX socket.id size]
  if esp.sendOk socket.id size = true then (.ok size, trace)
  else (.error .deviceError, trace)

/-- Modelled from the spec: `ESP8266::recv` — its implementation file
(ESP8266.cpp) is not among the repository sources, only its declaration in
`ESP8266/ESP8266.h`.  Per the spec the receive exchange, run under the
zero-wait timeout, "returns immediately with however many bytes are ready,
never suspending" and reports failure (a negative count, mapped to
`WouldBlock` by the caller) "when zero bytes are currently available";
otherwise it delivers up to `amount` of the slot's pending bytes. -/
def esp_recv (pending : Nat) (amount : Nat) : Int :=
  if pending = 0 then -1 else Int.ofNat (min pending amount)

/-- `ESP8266Interface::socket_recv`: sets the zero receive timeout, issues the
receive exchange, maps a negative transport result to
`NSAPI_ERROR_WOULD_BLOCK`, and otherwise returns the byte count. -/
def socket_recv (pending : Nat) (socket : Esp8266Socket) (size : Nat) :
    Except NsapiError Nat × List Exchange :=
  if esp_recv pending size < 0 then
    (.error .wouldBlock,
     [.setTimeoutX ESP8266_RECV_TIMEOUT, .recvX socket.id size])
  else
    (.ok (esp_recv pending size).toNat,
     [.setTimeoutX ESP8266_RECV_TIMEOUT, .recvX socket.id size])

/-- Second half of `ESP8266Interface::socket_sendto`: the
`if (!socket->connected) { socket_connect; socket->addr = addr; }` step followed
by the delegation `return socket_send(socket, data, size)`. -/
def sendtoConnectAndSend (esp : EspTransport) (socket : Esp8266Socket)
    (addr : SocketAddr) (size : Nat) (trace0 : List Exchange) :
    Except NsapiError Nat × Esp8266Socket × List Exchange :=
  if socket.connected = false then
    match socket_connect esp socket addr with
    | (.error e, s1, tr1) => (.error e, s1, trace0 ++ tr1)
    | (.ok _, s1, tr1) =>
        let s2 := { s1 with addr := some addr }
        let sent := socket_send esp s2 size
        (sent.1, s2, trace0 ++ tr1 ++ sent.2)
  else
    let sent := socket_send esp socket size
    (sent.1, socket, trace0 ++ sent.2)

/-- `ESP8266Interface::socket_sendto`: when the socket is connected and its
recorded address differs from the requested one, it first sets the misc
timeout and issues a close exchange (failing with `DeviceError`, socket
untouched, if the close is rejected) and clears `connected`; it then
reconnects if unconnected, records the address, and delegates to
`socket_send`.  The protocol field plays no role in the retarget test. -/
def socket_sendto (esp : EspTransport) (socket : Esp8266Socket)
    (addr : SocketAddr) (size : Nat) :
    Except NsapiError Nat × Esp8266Socket × List Exchange :=
  if socket.connected = true ∧ socket.addr ≠ some addr then
    let trace0 : List Exchange :=
      [.setTimeoutX ESP8266_MISC_TIMEOUT, .closeX socket.id]
    if esp.closeOk socket.id = false then
      (.error .deviceError, socket, trace0)
    else
      sendtoConnectAndSend esp { socket with connected := false } addr size
        trace0
  else
    sendtoConnectAndSend esp socket addr size []

/-- `ESP8266Interface::socket_attach`: stores the callback (abstracted by its
context value) in `_cbs[socket->id]`. -/
def socket_attach (cbs : Cbs) (socket : Esp8266Socket) (d : Nat) : Cbs :=
  Function.update cbs socket.id (some d)

/-- `ESP8266Interface::event`: walks the whole callback table and invokes every
non-null callback with its stored context.  The result lists the invocations
`(slot, context)` in slot order. -/
def event (cbs : Cbs) : List (Fin ESP8266_SOCKET_COUNT × Nat) :=
  (List.finRange ESP8266_SOCKET_COUNT).filterMap fun i =>
    (cbs i).map fun d => (i, d)

/-- Modelled from the spec: the table side of an unsolicited *data available*
notification.  The packet bookkeeping lives in `ESP8266::_packet_handler`
(ESP8266.cpp), which is not among the repository sources; per the spec,
"on *data available*, the slot's `pending_bytes` is incremented by the
reported count", and a notification naming a `Free` id "is dropped without
affecting the table". -/
def dataAvailable (ids : Ids) (pending : Pending)
    (k : Fin ESP8266_SOCKET_COUNT) (n : Nat) : Pending :=
  if ids k = true then Function.update pending k (pending k + n) else pending

/-- A complete *data available* notification as the driver processes it: the
(spec-modelled) pending-count update, followed by the attached handler
`ESP8266Interface::event` — which the constructor registers via
`_esp.attach(this, &ESP8266Interface::event)` — firing the callbacks. -/
def notifyDataAvailable (ids : Ids) (pending : Pending) (cbs : Cbs)
    (k : Fin ESP8266_SOCKET_COUNT) (n : Nat) :
    Pending × List (Fin ESP8266_SOCKET_COUNT × Nat) :=
  (dataAvailable ids pending k n, event cbs)

/-- The freshly constructed occupancy table: `memset(_ids, 0, sizeof(_ids))`. -/
def initIds : Ids := fun _ => false

/-- A transport oracle on which every exchange succeeds. -/
def trAllOk : EspTransport :=
  { closeOk := fun _ => true, openOk := fun _ _ _ => true,
    sendOk := fun _ _ => true }

/-- A transport oracle whose close exchange is rejected. -/
def trCloseFail : EspTransport :=
  { closeOk := fun _ => false, openOk := fun _ _ _ => true,
    sendOk := fun _ _ => true }

/-- The table effect of one `socket_open` call, independent of the requested
protocol. -/
def openTable (ids : Ids) : Ids :=
  match findFree ids with
  | none => ids
  | some i => Function.update ids i true

/-- The occupancy table after `n` consecutive `socket_open` calls on a fresh
interface. -/
def tableAfter : Nat → Ids
  | 0 => initIds
  | n + 1 => openTable (tableAfter n)

/-- A peer address used as concrete test input. -/
def addrA : SocketAddr := ⟨"10.0.0.1", 80⟩

/-- A second, distinct peer address used as concrete test input. -/
def addrB : SocketAddr := ⟨"10.0.0.2", 81⟩

/-- The fully occupied table. -/
def fullIds : Ids := fun _ => true

theorem findFree_lowest :
    ∀ ids : Ids, ∀ i : Fin ESP8266_SOCKET_COUNT, findFree ids = some i →
      ids i = false ∧ ∀ j : Fin ESP8266_SOCKET_COUNT, j < i → ids j = true := by
  decide

theorem socket_open_of_findFree (ids : Ids) (proto : Protocol)
    (i : Fin ESP8266_SOCKET_COUNT) (hf : findFree ids = some i) :
    socket_open ids proto =
      (.ok { id := i, proto := proto, connected := false, addr := none },
       Function.update ids i true) := by
  unfold socket_open
  rw [hf]

theorem socket_open_snd (ids : Ids) (proto : Protocol) :
    (socket_open ids proto).2 = openTable ids := by
  unfold socket_open openTable
  cases findFree ids <;> rfl

/-- C2: a successful `socket_open` returns the lowest-numbered currently-free
id, marks exactly that slot occupied, records the requested protocol, and
starts the socket not connected with no recorded peer address. -/
theorem socket_open_lowest_free (ids : Ids) (proto : Protocol)
    (s : Esp8266Socket) (h : (socket_open ids proto).1 = .ok s) :
    ids s.id = false ∧
    (∀ j : Fin ESP8266_SOCKET_COUNT, j < s.id → ids j = true) ∧
    (socket_open ids proto).2 = Function.update ids s.id true ∧
    s.proto = proto ∧ s.connected = false ∧ s.addr = none := by
  cases hf : findFree ids with
  | none =>
      rw [socket_open, hf] at h
      exact absurd h (by simp)
  | some i =>
      rw [socket_open_of_findFree ids proto i hf] at h
      have hs := Except.ok.inj h
      subst hs
      refine ⟨(findFree_lowest ids i hf).1, (findFree_lowest ids i hf).2,
        ?_, rfl, rfl, rfl⟩
      rw [socket_open_of_findFree ids proto i hf]

/-- Witness for C2 at the fresh table: `socket_open` hands out id 0. -/
theorem socket_open_lowest_free_witness :
    (socket_open initIds .udp).1 =
      .ok { id := 0, proto := .udp, connected := false, addr := none } ∧
    (initIds (0 : Fin ESP8266_SOCKET_COUNT) = false ∧
     (∀ j : Fin ESP8266_SOCKET_COUNT, j < (0 : Fin ESP8266_SOCKET_COUNT) →
        initIds j = true) ∧
     (socket_open initIds .udp).2 =
       Function.update initIds (0 : Fin ESP8266_SOCKET_COUNT) true ∧
     Protocol.udp = Protocol.udp ∧ false = false ∧
     (none : Option SocketAddr) = none) :=
  ⟨rfl, socket_open_lowest_free initIds .udp
    { id := 0, proto := .udp, connected := false, addr := none } rfl⟩

/-- C3: on the 5-slot table, the five opens on a fresh interface all succeed
(handing out ids 0..4 in order, each occupying its slot), the sixth open fails
with `NoSocket` and leaves the table unchanged, and after closing any one of
the sockets the next open succeeds (reusing the freed id). -/
theorem capacity_bound_five_slots (p : Protocol) (esp : EspTransport) :
    (∀ k : Fin ESP8266_SOCKET_COUNT,
      (socket_open (tableAfter k.val) p).1 =
        .ok { id := k, proto := p, connected := false, addr := none } ∧
      (socket_open (tableAfter k.val) p).2 = tableAfter (k.val + 1)) ∧
    socket_open (tableAfter 5) p = (.error .noSocket, tableAfter 5) ∧
    (∀ sock : Esp8266Socket,
      (socket_open ((socket_close esp (tableAfter 5) sock).2.1) p).1 =
        .ok { id := sock.id, proto := p, connected := false, addr := none }) := by
  have hfind : ∀ k : Fin ESP8266_SOCKET_COUNT,
      findFree (tableAfter k.val) = some k := by decide
  have h5 : findFree (tableAfter 5) = none := by decide
  have hre : ∀ i : Fin ESP8266_SOCKET_COUNT,
      findFree (Function.update (tableAfter 5) i false) = some i := by decide
  refine ⟨fun k => ⟨?_, ?_⟩, ?_, fun sock => ?_⟩
  · rw [socket_open_of_findFree _ p k (hfind k)]
  · rw [socket_open_snd]
    show openTable (tableAfter k.val) = openTable (tableAfter k.val)
    rfl
  · rw [socket_open, h5]
  · have hcl : (socket_close esp (tableAfter 5) sock).2.1 =
        Function.update (tableAfter 5) sock.id false := rfl
    rw [hcl, socket_open_of_findFree _ p sock.id (hre sock.id)]

/-- C4: `socket_close` always releases the socket's id — with a succeeding
close exchange (returning success) just as with a failing one (returning
`DeviceError`) — and touches no other slot. -/
theorem socket_close_always_frees (esp : EspTransport) (ids : Ids)
    (sock : Esp8266Socket) :
    (socket_close esp ids sock).2.1 sock.id = false ∧
    (∀ j : Fin ESP8266_SOCKET_COUNT, j ≠ sock.id →
      (socket_close esp ids sock).2.1 j = ids j) ∧
    (esp.closeOk sock.id = true → (socket_close esp ids sock).1 = .ok ()) ∧
    (esp.closeOk sock.id = false →
      (socket_close esp ids sock).1 = .error .deviceError) := by
  refine ⟨Function.update_same _ _ _,
    fun j hj => Function.update_noteq hj _ _, fun h => ?_, fun h => ?_⟩
  · simp [socket_close, h]
  · simp [socket_close, h]

/-- Witness for C4: closing id 0 on the full table frees slot 0 and spares
slot 1, returning success under an accepting transport and `DeviceError`
under a rejecting one. -/
theorem socket_close_always_frees_witness :
    (socket_close trAllOk fullIds ⟨0, .udp, true, none⟩).2.1 0 = false ∧
    (socket_close trAllOk fullIds ⟨0, .udp, true, none⟩).2.1 1 = fullIds 1 ∧
    (socket_close trAllOk fullIds ⟨0, .udp, true, none⟩).1 = .ok () ∧
    (socket_close trCloseFail fullIds ⟨0, .udp, true, none⟩).1 =
      .error .deviceError :=
  ⟨(socket_close_always_frees trAllOk fullIds _).1,
   (socket_close_always_frees trAllOk fullIds _).2.1 1 (by decide),
   (socket_close_always_frees trAllOk fullIds _).2.2.1 rfl,
   (socket_close_always_frees trCloseFail fullIds _).2.2.2 rfl⟩

theorem socket_recv_eq (pending : Nat) (sock : Esp8266Socket) (size : Nat) :
    socket_recv pending sock size =
      ((if pending = 0 then .error .wouldBlock else .ok (min pending size)),
       [.setTimeoutX ESP8266_RECV_TIMEOUT, .recvX sock.id size]) := by
  by_cases hp : pending = 0
  · subst hp; rfl
  · unfold socket_recv esp_recv
    simp only [hp, if_false, ite_false]
    rw [if_neg (not_lt.mpr (by exact Int.natCast_nonneg _))]
    have h2 : (Int.ofNat (pending ⊓ size)).toNat = pending ⊓ size :=
      Int.toNat_ofNat _
    rw [h2]

/-- C6: `socket_recv` issues the receive exchange under the zero-wait timeout
(`ESP8266_RECV_TIMEOUT = 0`); with zero pending bytes it returns `WouldBlock`
at once, and a successful result always carries at least one byte. -/
theorem socket_recv_nonblocking (pending : Nat) (sock : Esp8266Socket)
    (size : Nat) (hsz : 0 < size) :
    (socket_recv pending sock size).2 =
      [.setTimeoutX ESP8266_RECV_TIMEOUT, .recvX sock.id size] ∧
    ESP8266_RECV_TIMEOUT = 0 ∧
    (pending = 0 → (socket_recv pending sock size).1 = .error .wouldBlock) ∧
    (∀ n, (socket_recv pending sock size).1 = .ok n → 0 < n) := by
  rw [socket_recv_eq]
  refine ⟨rfl, rfl, fun h => by simp [h], fun n h => ?_⟩
  by_cases hp : pending = 0
  · simp [hp] at h
  · simp [hp] at h
    omega

/-- Witness for C6: with zero pending bytes a one-byte receive yields
`WouldBlock`. -/
theorem socket_recv_nonblocking_witness :
    0 < 1 ∧ (socket_recv 0 ⟨0, .udp, true, none⟩ 1).1 = .error .wouldBlock :=
  ⟨Nat.one_pos,
   (socket_recv_nonblocking 0 ⟨0, .udp, true, none⟩ 1 Nat.one_pos).2.2.1 rfl⟩

/-- A transport oracle whose send exchange is rejected. -/
def trSendFail : EspTransport :=
  { closeOk := fun _ => true, openOk := fun _ _ _ => true,
    sendOk := fun _ _ => false }

/-- C7 counterexample: on a socket that is not connected, `socket_send` does
not fail with `InvalidHandle` and does issue the transport send exchange — it
returns the accepted byte count whenever the transport accepts it. -/
theorem socket_send_unconnected_cex :
    (⟨1, .tcp, false, none⟩ : Esp8266Socket).connected = false ∧
    (socket_send trAllOk ⟨1, .tcp, false, none⟩ 10).1 = .ok 10 ∧
    ¬(socket_send trAllOk ⟨1, .tcp, false, none⟩ 10).1 =
      .error .invalidHandle ∧
    (socket_send trAllOk ⟨1, .tcp, false, none⟩ 10).2 ≠ [] := by
  exact ⟨rfl, rfl, fun h => Except.noConfusion h, fun h => List.noConfusion h⟩

/-- C7 (amended): `socket_send` never checks the slot's connection state — it
always issues the send exchange under the send timeout, fails with
`DeviceError` exactly when the transport rejects it, returns the byte count
otherwise, and never produces `InvalidHandle`. -/
theorem socket_send_no_state_check (esp : EspTransport) (sock : Esp8266Socket)
    (size : Nat) :
    (socket_send esp sock size).2 =
      [.setTimeoutX ESP8266_SEND_TIMEOUT, .sendX sock.id size] ∧
    ((socket_send esp sock size).1 = .ok size ↔
      esp.sendOk sock.id size = true) ∧
    ((socket_send esp sock size).1 = .error .deviceError ↔
      esp.sendOk sock.id size = false) ∧
    (∀ e, (socket_send esp sock size).1 = .error e → e = .deviceError) := by
  unfold socket_send
  cases h : esp.sendOk sock.id size <;> simp [h]

/-- Witness for C7's amended theorem on a rejecting transport. -/
theorem socket_send_no_state_check_witness :
    (socket_send trSendFail ⟨2, .udp, true, none⟩ 7).2 =
      [.setTimeoutX ESP8266_SEND_TIMEOUT, .sendX 2 7] ∧
    NsapiError.deviceError = NsapiError.deviceError :=
  ⟨(socket_send_no_state_check trSendFail ⟨2, .udp, true, none⟩ 7).1,
   (socket_send_no_state_check trSendFail ⟨2, .udp, true, none⟩ 7).2.2.2
     .deviceError rfl⟩

/-- C8 counterexample: a successful `socket_connect` does not record the peer
address — after connecting a fresh socket to `addrA` the slot is connected but
its recorded address is still the default, not `addrA`. -/
theorem socket_connect_no_record_cex :
    (socket_connect trAllOk ⟨0, .udp, false, none⟩ addrA).1 = .ok () ∧
    (socket_connect trAllOk ⟨0, .udp, false, none⟩ addrA).2.1.connected =
      true ∧
    (socket_connect trAllOk ⟨0, .udp, false, none⟩ addrA).2.1.addr = none ∧
    ¬(socket_connect trAllOk ⟨0, .udp, false, none⟩ addrA).2.1.addr =
      some addrA :=
  ⟨rfl, rfl, rfl, fun h => Option.noConfusion h⟩

/-- C8 (amended): `socket_connect` issues one open exchange under the misc
timeout; on success the slot becomes connected with every other field — in
particular the recorded peer address — unchanged (the address is recorded only
by `socket_sendto`), and on transport failure it returns `DeviceError` leaving
the slot entirely unchanged. -/
theorem socket_connect_amended (esp : EspTransport) (sock : Esp8266Socket)
    (addr : SocketAddr) :
    (socket_connect esp sock addr).2.2 =
      [.setTimeoutX ESP8266_MISC_TIMEOUT,
       .openX (protoString sock.proto) sock.id addr] ∧
    ((socket_connect esp sock addr).1 = .ok () →
      (socket_connect esp sock addr).2.1 = { sock with connected := true }) ∧
    ((socket_connect esp sock addr).1 = .error .deviceError →
      (socket_connect esp sock addr).2.1 = sock) ∧
    ((socket_connect esp sock addr).1 = .ok () ↔
      esp.openOk (protoString sock.proto) sock.id addr = true) := by
  unfold socket_connect
  cases h : esp.openOk (protoString sock.proto) sock.id addr <;> simp [h]

/-- Witness for C8's amended theorem: connecting the fresh socket 0 to `addrA`
succeeds and leaves the address field at its default. -/
theorem socket_connect_amended_witness :
    (socket_connect trAllOk ⟨0, .udp, false, none⟩ addrA).2.1 =
      { id := 0, proto := .udp, connected := true, addr := none } :=
  (socket_connect_amended trAllOk ⟨0, .udp, false, none⟩ addrA).2.1 rfl

/-- C9 counterexample: a second `socket_close` on the already-released slot 0
still reports `DeviceError` when the transport rejects the repeated close
exchange, so the second call can return an error. -/
theorem socket_close_second_error_cex :
    initIds (0 : Fin ESP8266_SOCKET_COUNT) = false ∧
    (socket_close trCloseFail initIds ⟨0, .udp, false, none⟩).1 =
      .error .deviceError :=
  ⟨rfl, rfl⟩

/-- C9 (amended): a second `socket_close` after the slot has been released
leaves the whole occupancy table unchanged — the slot stays free and no other
slot is corrupted — and returns success exactly when the transport close
exchange succeeds, so it can still report `DeviceError` on a rejected
exchange. -/
theorem socket_close_idempotent_table (esp : EspTransport) (ids : Ids)
    (sock : Esp8266Socket) (h : ids sock.id = false) :
    (socket_close esp ids sock).2.1 = ids ∧
    ((socket_close esp ids sock).1 = .ok () ↔
      esp.closeOk sock.id = true) := by
  constructor
  · show Function.update ids sock.id false = ids
    rw [← h]
    exact Function.update_eq_self _ _
  · unfold socket_close
    cases hc : esp.closeOk sock.id <;> simp [hc]

/-- Witness for C9's amended theorem: re-closing freed slot 0 on a fresh
table keeps the table intact. -/
theorem socket_close_idempotent_table_witness :
    (socket_close trAllOk initIds ⟨0, .udp, false, none⟩).2.1 = initIds ∧
    ((socket_close trAllOk initIds ⟨0, .udp, false, none⟩).1 = .ok () ↔
      trAllOk.closeOk 0 = true) :=
  socket_close_idempotent_table trAllOk initIds ⟨0, .udp, false, none⟩ rfl

/-- A connected UDP socket on slot 0 bound to `addrA`. -/
def sockA : Esp8266Socket := ⟨0, .udp, true, some addrA⟩

/-- A connected TCP socket on slot 2 bound to `addrA`. -/
def sockT : Esp8266Socket := ⟨2, .tcp, true, some addrA⟩

/-- C5: on a connected UDP slot bound to peer `A`, `socket_sendto` towards a
different peer `B` closes the channel and reconnects it to `B` before the
send exchange (see the interaction trace), and on success the recorded peer
becomes `B`; an immediately following `socket_sendto` to the same `B` issues
no close and no reconnect — it delegates directly to `socket_send`, leaving
the socket untouched. -/
theorem sendto_udp_retarget (esp : EspTransport) (sock : Esp8266Socket)
    (A B : SocketAddr) (size : Nat)
    (hproto : sock.proto = .udp) (hconn : sock.connected = true)
    (haddr : sock.addr = some A) (hAB : A ≠ B)
    (hclose : esp.closeOk sock.id = true)
    (hopen : esp.openOk "UDP" sock.id B = true)
    (hsend : esp.sendOk sock.id size = true) :
    socket_sendto esp sock B size =
      (.ok size, { sock with connected := true, addr := some B },
       [.setTimeoutX ESP8266_MISC_TIMEOUT, .closeX sock.id,
        .setTimeoutX ESP8266_MISC_TIMEOUT, .openX "UDP" sock.id B,
        .setTimeoutX ESP8266_SEND_TIMEOUT, .sendX sock.id size]) ∧
    socket_sendto esp { sock with connected := true, addr := some B } B size =
      ((socket_send esp { sock with connected := true, addr := some B }
          size).1,
       { sock with connected := true, addr := some B },
       (socket_send esp { sock with connected := true, addr := some B }
          size).2) := by
  constructor
  · simp [socket_sendto, sendtoConnectAndSend, socket_connect, socket_send,
      protoString, hproto, hconn, haddr, hAB, hclose, hopen, hsend]
  · simp [socket_sendto, sendtoConnectAndSend]

/-- Witness for C5: retargeting slot 0 from `addrA` to `addrB` under an
accepting transport. -/
theorem sendto_udp_retarget_witness :
    socket_sendto trAllOk sockA addrB 12 =
      (.ok 12,
       { id := 0, proto := .udp, connected := true, addr := some addrB },
       [.setTimeoutX ESP8266_MISC_TIMEOUT, .closeX 0,
        .setTimeoutX ESP8266_MISC_TIMEOUT, .openX "UDP" 0 addrB,
        .setTimeoutX ESP8266_SEND_TIMEOUT, .sendX 0 12]) ∧
    socket_sendto trAllOk
        { id := 0, proto := .udp, connected := true, addr := some addrB }
        addrB 12 =
      ((socket_send trAllOk
          { id := 0, proto := .udp, connected := true, addr := some addrB }
          12).1,
       { id := 0, proto := .udp, connected := true, addr := some addrB },
       (socket_send trAllOk
          { id := 0, proto := .udp, connected := true, addr := some addrB }
          12).2) :=
  sendto_udp_retarget trAllOk sockA addrA addrB 12 rfl rfl rfl (by decide)
    rfl rfl rfl

/-- C10: the retarget test of `socket_sendto` reads only the connected flag
and the recorded peer — for every protocol, TCP included, a connected socket
whose recorded peer differs from the requested address goes through the
close-and-reconnect retarget before sending. -/
theorem sendto_retarget_any_proto (esp : EspTransport) (sock : Esp8266Socket)
    (B : SocketAddr) (size : Nat)
    (hconn : sock.connected = true) (haddr : sock.addr ≠ some B)
    (hclose : esp.closeOk sock.id = true)
    (hopen : esp.openOk (protoString sock.proto) sock.id B = true)
    (hsend : esp.sendOk sock.id size = true) :
    socket_sendto esp sock B size =
      (.ok size, { sock with connected := true, addr := some B },
       [.setTimeoutX ESP8266_MISC_TIMEOUT, .closeX sock.id,
        .setTimeoutX ESP8266_MISC_TIMEOUT,
        .openX (protoString sock.proto) sock.id B,
        .setTimeoutX ESP8266_SEND_TIMEOUT, .sendX sock.id size]) := by
  simp [socket_sendto, sendtoConnectAndSend, socket_connect, socket_send,
    hconn, haddr, hclose, hopen, hsend]

/-- Witness for C10: a connected TCP socket bound to `addrA` is retargeted to
`addrB` just like a UDP one. -/
theorem sendto_retarget_any_proto_witness :
    socket_sendto trAllOk sockT addrB 3 =
      (.ok 3,
       { id := 2, proto := .tcp, connected := true, addr := some addrB },
       [.setTimeoutX ESP8266_MISC_TIMEOUT, .closeX 2,
        .setTimeoutX ESP8266_MISC_TIMEOUT, .openX "TCP" 2 addrB,
        .setTimeoutX ESP8266_SEND_TIMEOUT, .sendX 2 3]) :=
  sendto_retarget_any_proto trAllOk sockT addrB 3 rfl (by decide) rfl rfl rfl

/-- The callback table with callbacks registered on slots 0 and 1 only. -/
def cbs01 : Cbs := fun i =>
  if i = 0 then some 100 else if i = 1 then some 101 else none

/-- The occupancy table with only slot 0 occupied. -/
def ids0 : Ids := fun i => decide (i = 0)

/-- The all-zero pending table. -/
def pend0 : Pending := fun _ => 0

/-- C1 counterexample: on a *data available* notification naming socket 0, the
callback registered for slot 1 fires as well — `ESP8266Interface::event` walks
the whole callback table, so the firing is not restricted to the slot named by
the notification. -/
theorem event_broadcast_cex :
    cbs01 1 = some 101 ∧ (1 : Fin ESP8266_SOCKET_COUNT) ≠ 0 ∧
    ((1 : Fin ESP8266_SOCKET_COUNT), 101) ∈
      (notifyDataAvailable ids0 pend0 cbs01 0 10).2 := by
  decide

/-- C1 (amended): a *data available* notification naming socket `k` updates
exactly slot `k`'s pending count (by the reported byte count when `k` is
occupied; a notification naming a free id changes nothing), but the callback
dispatch is a broadcast: every registered callback fires, whichever slot the
notification named. -/
theorem dataAvailable_routing_amended (ids : Ids) (pending : Pending)
    (cbs : Cbs) (k : Fin ESP8266_SOCKET_COUNT) (n : Nat) :
    (ids k = true →
      (notifyDataAvailable ids pending cbs k n).1 =
        Function.update pending k (pending k + n)) ∧
    (ids k = false → (notifyDataAvailable ids pending cbs k n).1 = pending) ∧
    (∀ j : Fin ESP8266_SOCKET_COUNT, j ≠ k →
      (notifyDataAvailable ids pending cbs k n).1 j = pending j) ∧
    (∀ i : Fin ESP8266_SOCKET_COUNT, ∀ d : Nat,
      ((i, d) ∈ (notifyDataAvailable ids pending cbs k n).2 ↔
        cbs i = some d)) := by
  refine ⟨fun h => ?_, fun h => ?_, fun j hj => ?_, fun i d => ?_⟩
  · simp [notifyDataAvailable, dataAvailable, h]
  · simp [notifyDataAvailable, dataAvailable, h]
  · unfold notifyDataAvailable dataAvailable
    cases hk : ids k <;>
      simp [hk, Function.update_noteq hj]
  · simp [notifyDataAvailable, event, List.mem_filterMap,
      Option.map_eq_some', List.mem_finRange]

/-- Witness for C1's amended theorem at the concrete tables: the notification
for occupied slot 0 bumps its pending count and spares slot 1; a notification
for free slot 1 is dropped; slot 0's registered callback is among those
fired. -/
theorem dataAvailable_routing_amended_witness :
    (notifyDataAvailable ids0 pend0 cbs01 0 10).1 =
      Function.update pend0 0 (pend0 0 + 10) ∧
    (notifyDataAvailable ids0 pend0 cbs01 1 10).1 = pend0 ∧
    (notifyDataAvailable ids0 pend0 cbs01 0 10).1 1 = pend0 1 ∧
    (((0 : Fin ESP8266_SOCKET_COUNT), 100) ∈
        (notifyDataAvailable ids0 pend0 cbs01 0 10).2 ↔
      cbs01 0 = some 100) :=
  ⟨(dataAvailable_routing_amended ids0 pend0 cbs01 0 10).1 rfl,
   (dataAvailable_routing_amended ids0 pend0 cbs01 1 10).2.1 rfl,
   (dataAvailable_routing_amended ids0 pend0 cbs01 0 10).2.2.1 1 (by decide),
   (dataAvailable_routing_amended ids0 pend0 cbs01 0 10).2.2.2 0 100⟩
